import Mathlib

/-!
Verification of the Consultologist chat pipeline.

The development embeds the serverless chat handler of `api/chat/index.js`
(the Azure Functions variant of the pipeline; the Astro endpoint variants
share the same pipeline logic).  The handler reads backend configuration,
checks the inbound request body, composes a schema-carrying system prompt,
calls the generation backend, decodes the reply as JSON, validates the
decoded value against the compiled schema validator, and renders the
validated value with the Liquid template engine.  External collaborators
(the OpenAI SDK call, `JSON.parse`, the compiled Ajv validator, and the
Liquid engine) are modelled as parameters of the environment; everything
the handler itself does is transcribed from the source.

The handler result is instrumented: besides the HTTP response it records
which pipeline stages ran and on which values (the backend call with its
messages, the raw text a decode was attempted on, the value validation ran
on, the value handed to the template renderer, and the error log lines).
-/

/-- JSON values, as produced by `JSON.parse` and consumed by the validator
and the template engine.  Numbers are modelled as integers; no pipeline
decision depends on fractional values. -/
inductive Json where
  | null : Json
  | bool : Bool → Json
  | num : Int → Json
  | str : String → Json
  | arr : List Json → Json
  | obj : List (String × Json) → Json

/-- JavaScript truthiness of a JSON value (`!x` in the handler guards). -/
def jsTruthy : Json → Bool
  | .null => false
  | .bool b => b
  | .num n => n != 0
  | .str s => s != ""
  | .arr _ => true
  | .obj _ => true

/-- Property access `value.prompt`: a field lookup on objects, `undefined`
(`none`) on every non-object. -/
def getField : Json → String → Option Json
  | .obj fs, k => List.lookup k fs
  | _, _ => none

/-- The `prompt` field extracted from the optional request body
(`const { prompt } = rawBody`). -/
def promptField : Option Json → Option Json
  | some j => getField j "prompt"
  | none => none

/-- Truthiness of the optional request body (`!rawBody`): an absent body is
falsy, otherwise JavaScript truthiness of the value. -/
def bodyTruthy : Option Json → Bool
  | none => false
  | some j => jsTruthy j

/-- One Ajv violation as the handler consumes it: the `instancePath` of the
defect and its `message`. -/
structure Violation where
  instancePath : String
  message : String
deriving DecidableEq, Repr

/-- The compiled schema validator as the handler sees it: `check` is the
boolean verdict of `validate(value)`, and `errorsAfter` is the content of
`validate.errors` right after that call (`none` models `null`). -/
structure Validator where
  check : Json → Bool
  errorsAfter : Json → Option (List Violation)

/-- Truthiness of an optional environment variable (`!process.env.X`): absent
or empty means falsy. -/
def envTruthy : Option String → Bool
  | none => false
  | some s => s != ""

/-- The four Azure OpenAI configuration items read from the environment. -/
structure Config where
  endpoint : Option String
  deploymentName : Option String
  apiVersion : Option String
  apiKey : Option String

/-- Outcome of the `openai.chat.completions.create` call: either the SDK
throws (transport, authentication or provider failure), or it returns a
completion whose `choices[0]?.message?.content` is the optional text. -/
inductive BackendOutcome where
  | throwErr : String → BackendOutcome
  | reply : Option String → BackendOutcome

/-- The environment of one request: configuration, request body, and the
behaviour of the external collaborators (generation backend, `JSON.parse`
on the reply text, compiled validator, Liquid render). `schemaString` is
the serialized schema document loaded at module start. -/
structure Env where
  config : Config
  body : Option Json
  backend : BackendOutcome
  parse : String → Option Json
  validator : Validator
  render : Json → Except String String
  schemaString : String

/-- The HTTP response the handler assigns to `context.res`. -/
structure HttpRes where
  status : Nat
  body : String
deriving DecidableEq, Repr

/-- Instrumented result of one handler run: the response, plus which stages
ran and on which values.  `backendCall` holds the (system, user) messages
iff the generation call was attempted; `decodeAttempt` the raw text
`JSON.parse` ran on; `validatedVal` the value the validator ran on;
`renderedVal` the value handed to the template engine; `logs` the
`context.log.error` lines (label, string payload — structured payloads are
abstracted to an empty payload). -/
structure HandlerResult where
  res : HttpRes
  backendCall : Option (String × String)
  decodeAttempt : Option String
  validatedVal : Option Json
  renderedVal : Option Json
  logs : List (String × String)

/-- Fixed part of the system message before the embedded schema document,
transcribed from the handler source. -/
def sysPre : String :=
  "You are Consultologist, an AI assistant specialized in helping oncologists create structured consultation notes for breast cancer patients.\n\nIMPORTANT CONTEXT:\n- You are working with breast cancer oncology consultations\n- Focus on staging, pathology, receptor status, and treatment planning\n- Always consider TNM staging, hormone receptor status, HER2 status, and Oncotype DX scores when available\n- Treatment plans should include endocrine therapy, chemotherapy, and radiation considerations\n- Use evidence-based treatment recommendations\n\nCRITICAL: You must respond with ONLY a valid JSON object that conforms to the following structure:\n\n"

/-- Fixed part of the system message after the embedded schema document. -/
def sysPost : String :=
  "\n\nREQUIREMENTS:\n- Your response must be ONLY a valid JSON object that strictly conforms to this schema\n- Do not include any explanatory text, markdown formatting, or additional commentary\n- All required fields must be present and properly formatted\n- Use the exact enum values specified in the schema\n- Follow all pattern constraints (e.g., TNM staging patterns, receptor scoring patterns)\n- Return only the JSON object, nothing else"

/-- The composed system message: fixed framing with the serialized schema
embedded verbatim (`systemContext` in the source). -/
def systemContext (schemaString : String) : String :=
  sysPre ++ schemaString ++ sysPost

/-- Error body for incomplete Azure OpenAI configuration, transcribed from
the source; the mandatory item names appear verbatim. -/
def configErrorHtml : String :=
  "\n        <div class=\"error-message\">\n          <h3>⚠️ Configuration Error</h3>\n          <p>Azure OpenAI configuration is incomplete. Please ensure "
    ++ "AZURE_OPENAI_ENDPOINT" ++ ", " ++ "AZURE_OPENAI_DEPLOYMENT_NAME" ++ ", "
    ++ "AZURE_OPENAI_API_VERSION" ++ ", and " ++ "OPENAI_API_KEY"
    ++ " are set.</p>\n        </div>\n      "

/-- Error body for an empty request body. -/
def emptyBodyHtml : String :=
  "\n        <div class=\"error-message\">\n          <h3>⚠️ Invalid Request</h3>\n          <p>Request body is empty. Please provide consultation details.</p>\n        </div>\n      "

/-- Error body for a missing or non-string prompt. -/
def invalidInputHtml : String :=
  "\n        <div class=\"error-message\">\n          <h3>⚠️ Invalid Input</h3>\n          <p>Please provide valid consultation details.</p>\n        </div>\n      "

/-- Error body produced by the catch-all handler, wrapping the caught error
message in the details section. -/
def errorDetailsHtml (msg : String) : String :=
  "\n      <div class=\"error-message\">\n        <h3>⚠️ Error Processing Request</h3>\n        <p>Sorry, there was an error processing your consultation request. Please try again.</p>\n        <details>\n          <summary>Error Details</summary>\n          <p class=\"error-details\">"
    ++ msg
    ++ "</p>\n        </details>\n      </div>\n    "

/-- One line of the validation summary: `${error.instancePath || 'root'}: ${error.message}`. -/
def violationLine (e : Violation) : String :=
  (if e.instancePath = "" then "root" else e.instancePath) ++ ": " ++ e.message

/-- JavaScript `Array.prototype.join(sep)` on a list of strings. -/
def joinSep (sep : String) : List String → String
  | [] => ""
  | [a] => a
  | a :: rest => a ++ sep ++ joinSep sep rest

/-- The human-readable validation summary:
`errors.map(e => path + ": " + e.message).join(", ") || "Unknown validation error"`. -/
def validationSummary (es : List Violation) : String :=
  if joinSep ", " (es.map violationLine) = "" then "Unknown validation error"
  else joinSep ", " (es.map violationLine)

/-- Pipeline tail of the handler from the generation call onward, entered
once configuration and the prompt `p` have been accepted.  Transcribed from
the source: backend failure, missing content, decode failure and schema
violations all throw and are converted by the catch-all into the 500
response wrapping the error message. -/
def deliver (env : Env) (p : String) : HandlerResult :=
  match env.backend with
  | .throwErr m =>
    { res := { status := 500, body := errorDetailsHtml m },
      backendCall := some (systemContext env.schemaString, p),
      decodeAttempt := none, validatedVal := none, renderedVal := none,
      logs := [("API Error details:", m)] }
  | .reply none =>
    { res := { status := 500, body := errorDetailsHtml "No response from Azure OpenAI" },
      backendCall := some (systemContext env.schemaString, p),
      decodeAttempt := none, validatedVal := none, renderedVal := none,
      logs := [("No response content from Azure OpenAI", ""),
               ("API Error details:", "No response from Azure OpenAI")] }
  | .reply (some content) =>
    match env.parse content with
    | none =>
      { res := { status := 500, body := errorDetailsHtml "Invalid JSON response from AI" },
        backendCall := some (systemContext env.schemaString, p),
        decodeAttempt := some content, validatedVal := none, renderedVal := none,
        logs := [("Failed to parse Azure OpenAI response as JSON:", ""),
                 ("Response content:", content),
                 ("API Error details:", "Invalid JSON response from AI")] }
    | some v =>
      if !(env.validator.check v) && (env.validator.errorsAfter v).isSome then
        { res := { status := 500,
                   body := errorDetailsHtml ("AI response does not match expected format: "
                     ++ validationSummary ((env.validator.errorsAfter v).getD [])) },
          backendCall := some (systemContext env.schemaString, p),
          decodeAttempt := some content, validatedVal := some v, renderedVal := none,
          logs := [("Schema validation failed:", ""), ("Invalid data:", ""),
                   ("API Error details:", "AI response does not match expected format: "
                     ++ validationSummary ((env.validator.errorsAfter v).getD []))] }
      else
        match env.render v with
        | .error m =>
          { res := { status := 500, body := errorDetailsHtml m },
            backendCall := some (systemContext env.schemaString, p),
            decodeAttempt := some content, validatedVal := some v, renderedVal := some v,
            logs := [("API Error details:", m)] }
        | .ok html =>
          { res := { status := 200, body := html },
            backendCall := some (systemContext env.schemaString, p),
            decodeAttempt := some content, validatedVal := some v, renderedVal := some v,
            logs := [] }

/-- The chat handler, transcribed from the default export of
`api/chat/index.js`: configuration check, empty-body check, prompt check
(`!prompt || typeof prompt !== "string"`), then the pipeline tail. -/
def chat (env : Env) : HandlerResult :=
  if !envTruthy env.config.endpoint || !envTruthy env.config.deploymentName
      || !envTruthy env.config.apiVersion || !envTruthy env.config.apiKey then
    { res := { status := 500, body := configErrorHtml },
      backendCall := none, decodeAttempt := none, validatedVal := none, renderedVal := none,
      logs := [("Azure OpenAI configuration is incomplete", "")] }
  else if !bodyTruthy env.body then
    { res := { status := 400, body := emptyBodyHtml },
      backendCall := none, decodeAttempt := none, validatedVal := none, renderedVal := none,
      logs := [("Empty request body received", "")] }
  else
    match promptField env.body with
    | some (.str p) =>
      if p = "" then
        { res := { status := 400, body := invalidInputHtml },
          backendCall := none, decodeAttempt := none, validatedVal := none, renderedVal := none,
          logs := [] }
      else deliver env p
    | _ =>
      { res := { status := 400, body := invalidInputHtml },
        backendCall := none, decodeAttempt := none, validatedVal := none, renderedVal := none,
        logs := [] }

/-- Substring containment, used to state that an error body names a
configuration item. -/
def ContainsStr (s sub : String) : Prop :=
  ∃ pre post, s = pre ++ (sub ++ post)

theorem ne_empty_append_left (a b : String) (ha : a ≠ "") : a ++ b ≠ "" := by
  intro h
  apply ha
  apply String.ext
  have hd := congrArg String.data h
  rw [String.data_append] at hd
  rcases List.append_eq_nil.mp hd with ⟨h1, _⟩
  rw [h1]

theorem joinSep_ne_empty (sep : String) :
    ∀ xs : List String, (∀ x ∈ xs, x ≠ "") → xs ≠ [] → joinSep sep xs ≠ ""
  | [], _, hne => absurd rfl hne
  | [a], hx, _ => by simpa [joinSep] using hx a (by simp)
  | a :: b :: rest, hx, _ => by
      show a ++ sep ++ joinSep sep (b :: rest) ≠ ""
      exact ne_empty_append_left _ _ (ne_empty_append_left _ _ (hx a (by simp)))

theorem violationLine_ne_empty (e : Violation) : violationLine e ≠ "" := by
  intro h
  have hlen : (violationLine e).length = 0 := by rw [h]; rfl
  rw [violationLine, String.length_append, String.length_append] at hlen
  have h2 : (": ").length = 2 := rfl
  rw [h2] at hlen
  omega

theorem validationSummary_of_ne_nil (es : List Violation) (h : es ≠ []) :
    validationSummary es = joinSep ", " (es.map violationLine) := by
  rw [validationSummary, if_neg]
  apply joinSep_ne_empty
  · intro x hx
    rcases List.mem_map.mp hx with ⟨e, _, rfl⟩
    exact violationLine_ne_empty e
  · simpa using h

/-- C8: for every request and every backend outcome (transport failure,
provider error, empty content, malformed JSON, schema violation, render
failure), the handler returns a response whose status is 200, 400 or 500:
every failure is caught at the pipeline boundary and converted to a
caller-visible result, and no input makes the handler throw out of its
body. -/
theorem chat_never_crashes (env : Env) :
    (chat env).res.status = 200 ∨ (chat env).res.status = 400 ∨ (chat env).res.status = 500 := by
  unfold chat deliver
  repeat' split
  all_goals simp

/-- C4: when any mandatory configuration item (endpoint, deployment name,
API version or API key) is absent, the handler fails fast with a 500
configuration error whose body names the missing item(s), and no call to
the generation backend is attempted. -/
theorem chat_missing_config_fails_fast (env : Env)
    (h : envTruthy env.config.endpoint = false ∨ envTruthy env.config.deploymentName = false
      ∨ envTruthy env.config.apiVersion = false ∨ envTruthy env.config.apiKey = false) :
    (chat env).res.status = 500 ∧ (chat env).res.body = configErrorHtml ∧
    (chat env).backendCall = none ∧
    ContainsStr (chat env).res.body "AZURE_OPENAI_ENDPOINT" ∧
    ContainsStr (chat env).res.body "AZURE_OPENAI_DEPLOYMENT_NAME" ∧
    ContainsStr (chat env).res.body "AZURE_OPENAI_API_VERSION" ∧
    ContainsStr (chat env).res.body "OPENAI_API_KEY" := by
  have hguard : (!envTruthy env.config.endpoint || !envTruthy env.config.deploymentName
      || !envTruthy env.config.apiVersion || !envTruthy env.config.apiKey) = true := by
    rcases h with h | h | h | h <;> simp [h]
  unfold chat
  rw [if_pos hguard]
  refine ⟨rfl, rfl, rfl, ?_, ?_, ?_, ?_⟩
  · exact ⟨"\n        <div class=\"error-message\">\n          <h3>⚠️ Configuration Error</h3>\n          <p>Azure OpenAI configuration is incomplete. Please ensure ",
      ", " ++ "AZURE_OPENAI_DEPLOYMENT_NAME" ++ ", " ++ "AZURE_OPENAI_API_VERSION" ++ ", and "
        ++ "OPENAI_API_KEY" ++ " are set.</p>\n        </div>\n      ",
      by simp [configErrorHtml, String.append_assoc]⟩
  · exact ⟨"\n        <div class=\"error-message\">\n          <h3>⚠️ Configuration Error</h3>\n          <p>Azure OpenAI configuration is incomplete. Please ensure "
        ++ "AZURE_OPENAI_ENDPOINT" ++ ", ",
      ", " ++ "AZURE_OPENAI_API_VERSION" ++ ", and " ++ "OPENAI_API_KEY"
        ++ " are set.</p>\n        </div>\n      ",
      by simp [configErrorHtml, String.append_assoc]⟩
  · exact ⟨"\n        <div class=\"error-message\">\n          <h3>⚠️ Configuration Error</h3>\n          <p>Azure OpenAI configuration is incomplete. Please ensure "
        ++ "AZURE_OPENAI_ENDPOINT" ++ ", " ++ "AZURE_OPENAI_DEPLOYMENT_NAME" ++ ", ",
      ", and " ++ "OPENAI_API_KEY" ++ " are set.</p>\n        </div>\n      ",
      by simp [configErrorHtml, String.append_assoc]⟩
  · exact ⟨"\n        <div class=\"error-message\">\n          <h3>⚠️ Configuration Error</h3>\n          <p>Azure OpenAI configuration is incomplete. Please ensure "
        ++ "AZURE_OPENAI_ENDPOINT" ++ ", " ++ "AZURE_OPENAI_DEPLOYMENT_NAME" ++ ", "
        ++ "AZURE_OPENAI_API_VERSION" ++ ", and ",
      " are set.</p>\n        </div>\n      ",
      by simp [configErrorHtml, String.append_assoc]⟩

/-- C10: the configuration check precedes all input validation: whenever the
mandatory backend configuration is incomplete, the handler returns the 500
configuration error — for every request body, including one whose prompt is
also missing or invalid — so such a request never receives a 400
input-category response. -/
theorem chat_config_precedes_input (env : Env)
    (h : (envTruthy env.config.endpoint && envTruthy env.config.deploymentName
      && envTruthy env.config.apiVersion && envTruthy env.config.apiKey) = false) :
    (chat env).res.status = 500 ∧ (chat env).res.status ≠ 400 ∧
    (chat env).res.body = configErrorHtml := by
  have hguard : (!envTruthy env.config.endpoint || !envTruthy env.config.deploymentName
      || !envTruthy env.config.apiVersion || !envTruthy env.config.apiKey) = true := by
    rcases Bool.and_eq_false_iff.mp h with h' | h'
    · rcases Bool.and_eq_false_iff.mp h' with h'' | h''
      · rcases Bool.and_eq_false_iff.mp h'' with h3 | h3 <;> simp [h3]
      · simp [h'']
    · simp [h']
  unfold chat
  rw [if_pos hguard]
  exact ⟨rfl, by decide, rfl⟩

/-- C6: whenever the generation backend is called, the system message is the
fixed domain-framing preamble with the serialized schema document embedded
verbatim (a deterministic function of the schema), and the user message is
exactly the non-empty prompt string supplied by the caller, unmodified. -/
theorem chat_messages_from_schema_and_prompt (env : Env) (sys usr : String)
    (h : (chat env).backendCall = some (sys, usr)) :
    sys = sysPre ++ env.schemaString ++ sysPost ∧
    promptField env.body = some (.str usr) ∧ usr ≠ "" := by
  revert h
  unfold chat deliver
  repeat' split
  all_goals intro h
  all_goals simp_all [systemContext]

/-- C5: whenever a decode was attempted on backend text that does not parse
as JSON, the request terminates with the decode-category 500 error (never a
validation-stage error: validation never runs), the raw text is preserved in
the diagnostic log, and no render occurs. -/
theorem chat_decode_failure (env : Env) (content : String)
    (hd : (chat env).decodeAttempt = some content)
    (hp : env.parse content = none) :
    (chat env).res.status = 500 ∧
    (chat env).res.body = errorDetailsHtml "Invalid JSON response from AI" ∧
    (chat env).validatedVal = none ∧ (chat env).renderedVal = none ∧
    ("Response content:", content) ∈ (chat env).logs := by
  revert hd
  unfold chat deliver
  repeat' split
  all_goals intro hd
  all_goals simp_all

/-- C1: the template renderer runs only on values for which the compiled
validator returned success.  Under the Ajv contract (a failed check leaves a
non-null error list), every value handed to the render call passed
validation, and a value that failed validation leads to a 500 error with no
render. -/
theorem chat_renders_only_validated (env : Env)
    (hc : ∀ v, env.validator.check v = false → (env.validator.errorsAfter v).isSome = true) :
    (∀ v, (chat env).renderedVal = some v → env.validator.check v = true) ∧
    (∀ v, (chat env).validatedVal = some v → env.validator.check v = false →
      (chat env).renderedVal = none ∧ (chat env).res.status = 500) := by
  constructor
  · intro v hr
    revert hr
    unfold chat deliver
    repeat' split
    all_goals intro hr
    all_goals try simp_all
  · intro v hv hchk
    revert hv
    unfold chat deliver
    repeat' split
    all_goals intro hv
    all_goals try simp_all

/-- C7: the value handed to the template renderer is exactly the decoded
value — whatever `JSON.parse` produced is forwarded with no field repaired,
defaulted, coerced, added or removed — and, under the Ajv contract, a
decoded value the validator rejects is never rendered (wholly rejected,
never partially accepted). -/
theorem chat_forwards_decoded_value (env : Env)
    (hc : ∀ v, env.validator.check v = false → (env.validator.errorsAfter v).isSome = true) :
    (∀ v, (chat env).renderedVal = some v →
      (chat env).validatedVal = some v ∧
      ∀ c, (chat env).decodeAttempt = some c → env.parse c = some v) ∧
    (∀ v, env.validator.check v = false → (chat env).renderedVal ≠ some v) := by
  constructor
  · intro v hr
    revert hr
    unfold chat deliver
    repeat' split
    all_goals intro hr
    all_goals simp_all
  · intro v hchk hr
    revert hr
    unfold chat deliver
    repeat' split
    all_goals intro hr
    all_goals simp_all

/-- C3: when the decoded value fails schema validation with a non-empty
violation list, the resulting 500 error carries the single human-readable
summary built by mapping each violation to `path: message` (the validator's
instancePath, `root` when empty) and joining them in the validator's
violation order, and no render occurs. -/
theorem chat_validation_error_summary (env : Env) (v : Json) (es : List Violation)
    (hv : (chat env).validatedVal = some v)
    (hchk : env.validator.check v = false)
    (herr : env.validator.errorsAfter v = some es)
    (hne : es ≠ []) :
    (chat env).res.status = 500 ∧
    (chat env).res.body = errorDetailsHtml ("AI response does not match expected format: "
      ++ joinSep ", " (es.map violationLine)) ∧
    (chat env).renderedVal = none := by
  have hsum := validationSummary_of_ne_nil es hne
  revert hv
  unfold chat deliver
  repeat' split
  all_goals intro hv
  all_goals simp_all

/-- C2 (amended): with complete backend configuration, every request whose
`prompt` field is missing, not a string, or the empty string receives a 400
rejection and the pipeline is not entered: no backend call, no decode, no
validation, no render.  (A prompt consisting only of whitespace is not
rejected: it is a truthy string, so the pipeline runs; see the
counterexample below.) -/
theorem chat_invalid_prompt_rejected (env : Env)
    (hconf : envTruthy env.config.endpoint = true ∧ envTruthy env.config.deploymentName = true
      ∧ envTruthy env.config.apiVersion = true ∧ envTruthy env.config.apiKey = true)
    (hp : ∀ s : String, s ≠ "" → promptField env.body ≠ some (.str s)) :
    (chat env).res.status = 400 ∧ (chat env).backendCall = none ∧
    (chat env).decodeAttempt = none ∧ (chat env).validatedVal = none ∧
    (chat env).renderedVal = none := by
  obtain ⟨h1, h2, h3, h4⟩ := hconf
  unfold chat
  rw [if_neg (by simp [h1, h2, h3, h4])]
  split
  · exact ⟨rfl, rfl, rfl, rfl, rfl⟩
  · split
    · next p heq =>
      split
      · exact ⟨rfl, rfl, rfl, rfl, rfl⟩
      · next hne => exact absurd heq (hp p hne)
    · exact ⟨rfl, rfl, rfl, rfl, rfl⟩

/-- A fully populated Azure OpenAI configuration. -/
def cfgFull : Config :=
  { endpoint := some "https://example.openai.azure.com",
    deploymentName := some "gpt-4o",
    apiVersion := some "2024-02-01",
    apiKey := some "key123" }

/-- A validator that accepts every value and leaves the error list null. -/
def acceptAll : Validator :=
  { check := fun _ => true, errorsAfter := fun _ => none }

/-- A request environment whose prompt is a single space: a whitespace-only
prompt, with a healthy backend, decoder, validator and renderer. -/
def envWhitespace : Env :=
  { config := cfgFull,
    body := some (.obj [("prompt", .str " ")]),
    backend := .reply (some "reply-text"),
    parse := fun _ => some (.obj [("front_matter", .obj [])]),
    validator := acceptAll,
    render := fun _ => .ok "<section>note</section>",
    schemaString := "schema-document" }

/-- C2 (counterexample): a request whose prompt consists only of whitespace
is not rejected with a 400: the handler calls the generation backend and
completes the pipeline with a 200 response. -/
theorem chat_whitespace_prompt_counterexample :
    (chat envWhitespace).res.status = 200 ∧
    (chat envWhitespace).res.status ≠ 400 ∧
    (chat envWhitespace).backendCall.isSome = true ∧
    (chat envWhitespace).renderedVal.isSome = true := by
  refine ⟨rfl, by decide, rfl, rfl⟩

/-- A request environment with complete configuration whose body lacks the
`prompt` field. -/
def envNoPrompt : Env :=
  { config := cfgFull,
    body := some (.obj [("note", .str "hello")]),
    backend := .reply none,
    parse := fun _ => none,
    validator := acceptAll,
    render := fun _ => .ok "",
    schemaString := "schema-document" }

/-- C2 witness: with a missing prompt field the handler answers 400 and the
backend is never called. -/
theorem chat_invalid_prompt_rejected_witness :
    (chat envNoPrompt).res.status = 400 ∧ (chat envNoPrompt).backendCall = none := by
  have h := chat_invalid_prompt_rejected envNoPrompt ⟨rfl, rfl, rfl, rfl⟩
    (fun _ _ hx => Option.noConfusion hx)
  exact ⟨h.1, h.2.1⟩

/-- A healthy end-to-end request environment: configured backend, prompt
text, JSON reply, accepting validator, successful render. -/
def envRenderOk : Env :=
  { config := cfgFull,
    body := some (.obj [("prompt", .str "55F Stage IIA ER 8/8 PR 7/8 HER2 negative")]),
    backend := .reply (some "reply-json"),
    parse := fun _ => some (.obj [("front_matter", .obj [])]),
    validator := acceptAll,
    render := fun _ => .ok "<div>consult note</div>",
    schemaString := "schema-document" }

/-- C1 witness: in the healthy environment the rendered value passed
validation. -/
theorem chat_renders_only_validated_witness :
    envRenderOk.validator.check (.obj [("front_matter", .obj [])]) = true := by
  have h := chat_renders_only_validated envRenderOk (fun _ hx => Bool.noConfusion hx)
  exact h.1 _ rfl

/-- C7 witness: in the healthy environment the rendered value is exactly the
decoded value, which is also the value validation ran on. -/
theorem chat_forwards_decoded_value_witness :
    (chat envRenderOk).validatedVal = some (.obj [("front_matter", .obj [])]) ∧
    envRenderOk.parse "reply-json" = some (.obj [("front_matter", .obj [])]) := by
  have h := chat_forwards_decoded_value envRenderOk (fun _ hx => Bool.noConfusion hx)
  exact ⟨(h.1 _ rfl).1, (h.1 _ rfl).2 _ rfl⟩

/-- C6 witness: in the healthy environment the backend is called with the
schema-embedding system message and the caller's exact prompt. -/
theorem chat_messages_from_schema_and_prompt_witness :
    systemContext "schema-document" = sysPre ++ "schema-document" ++ sysPost ∧
    promptField envRenderOk.body = some (.str "55F Stage IIA ER 8/8 PR 7/8 HER2 negative") := by
  have h := chat_messages_from_schema_and_prompt envRenderOk (systemContext "schema-document")
    "55F Stage IIA ER 8/8 PR 7/8 HER2 negative" rfl
  exact ⟨h.1, h.2.1⟩

/-- An environment whose backend reply is not JSON: the decoder rejects it. -/
def envBadJson : Env :=
  { config := cfgFull,
    body := some (.obj [("prompt", .str "consult please")]),
    backend := .reply (some "\x7bnot json"),
    parse := fun _ => none,
    validator := acceptAll,
    render := fun _ => .ok "",
    schemaString := "schema-document" }

/-- C5 witness: the text that failed to parse is preserved in the diagnostic
log and the request ends with the decode-category 500 error. -/
theorem chat_decode_failure_witness :
    (chat envBadJson).res.status = 500 ∧
    ("Response content:", "\x7bnot json") ∈ (chat envBadJson).logs := by
  have h := chat_decode_failure envBadJson "\x7bnot json" rfl rfl
  exact ⟨h.1, h.2.2.2.2⟩

/-- A validator rejecting every value with a fixed ordered violation list. -/
def rejectReceptors : Validator :=
  { check := fun _ => false,
    errorsAfter := fun _ => some
      [⟨"/front_matter/receptors", "is required"⟩,
       ⟨"/front_matter/staging", "is required"⟩] }

/-- An environment whose decoded reply fails schema validation. -/
def envInvalid : Env :=
  { config := cfgFull,
    body := some (.obj [("prompt", .str "55F Stage IIA")]),
    backend := .reply (some "reply-json"),
    parse := fun _ => some (.obj []),
    validator := rejectReceptors,
    render := fun _ => .ok "",
    schemaString := "schema-document" }

/-- C3 witness: the validation failure surfaces the comma-joined,
order-preserving `path: message` summary. -/
theorem chat_validation_error_summary_witness :
    (chat envInvalid).res.status = 500 ∧
    (chat envInvalid).res.body = errorDetailsHtml ("AI response does not match expected format: "
      ++ joinSep ", " ([Violation.mk "/front_matter/receptors" "is required",
          Violation.mk "/front_matter/staging" "is required"].map violationLine)) ∧
    (chat envInvalid).renderedVal = none := by
  have h := chat_validation_error_summary envInvalid (.obj [])
    [⟨"/front_matter/receptors", "is required"⟩, ⟨"/front_matter/staging", "is required"⟩]
    rfl rfl rfl (by decide)
  exact ⟨h.1, h.2.1, h.2.2⟩

/-- An environment missing the API key configuration item. -/
def envNoKey : Env :=
  { config := { endpoint := some "https://example.openai.azure.com",
                deploymentName := some "gpt-4o",
                apiVersion := some "2024-02-01",
                apiKey := none },
    body := some (.obj [("prompt", .str "consult please")]),
    backend := .reply none,
    parse := fun _ => none,
    validator := acceptAll,
    render := fun _ => .ok "",
    schemaString := "schema-document" }

/-- C4 witness: with the API key missing the handler answers the 500
configuration error naming the missing item, without calling the backend. -/
theorem chat_missing_config_fails_fast_witness :
    (chat envNoKey).res.status = 500 ∧ (chat envNoKey).backendCall = none ∧
    ContainsStr (chat envNoKey).res.body "OPENAI_API_KEY" := by
  have h := chat_missing_config_fails_fast envNoKey (Or.inr (Or.inr (Or.inr rfl)))
  exact ⟨h.1, h.2.2.1, h.2.2.2.2.2.2⟩

/-- An environment with no configuration at all and a request body that also
lacks the prompt field. -/
def envNothing : Env :=
  { config := { endpoint := none, deploymentName := none, apiVersion := none, apiKey := none },
    body := some (.obj []),
    backend := .reply none,
    parse := fun _ => none,
    validator := acceptAll,
    render := fun _ => .ok "",
    schemaString := "schema-document" }

/-- C10 witness: with configuration absent and the prompt also missing, the
response is the 500 configuration error, not a 400 input error. -/
theorem chat_config_precedes_input_witness :
    (chat envNothing).res.status = 500 ∧ (chat envNothing).res.status ≠ 400 := by
  have h := chat_config_precedes_input envNothing rfl
  exact ⟨h.1, h.2.1⟩

/-- Modelled from the spec: the schema shape understood by the repository's
precompiled standalone validator (`src/schemas/compiled-validator.js`,
imported by the endpoint variants but not present in the sources here).
Per §4.1 it supports required fields, type checks, enum membership, pattern
constraints (abstracted to decidable string predicates), numeric bounds and
nested object/array validation; object fields are listed in
schema-declaration order. -/
inductive Schema where
  | sBool : Schema
  | sNum : Option Int → Option Int → Schema
  | sStr : Option (List String) → Option (String → Bool) → Schema
  | sObj : List (String × Bool × Schema) → Schema
  | sArr : Schema → Schema

mutual

/-- Modelled from the spec: the ordered violation list of a value against a
schema node, collected in document-traversal order, which proceeds in
schema-declaration field order (not input field order). -/
def checkViolations : Schema → String → Json → List Violation
  | .sBool, _, .bool _ => []
  | .sBool, path, _ => [⟨path, "must be boolean"⟩]
  | .sNum lo hi, path, .num n =>
    (match lo with
     | some l => if n < l then [⟨path, "must be at least " ++ toString l⟩] else []
     | none => []) ++
    (match hi with
     | some u => if u < n then [⟨path, "must be at most " ++ toString u⟩] else []
     | none => [])
  | .sNum _ _, path, _ => [⟨path, "must be number"⟩]
  | .sStr en pat, path, .str s =>
    (match en with
     | some allowed => if s ∈ allowed then []
       else [⟨path, "must be equal to one of the allowed values"⟩]
     | none => []) ++
    (match pat with
     | some ok => if ok s then []
       else [⟨path, "must match the required pattern with value " ++ s⟩]
     | none => [])
  | .sStr _ _, path, _ => [⟨path, "must be string"⟩]
  | .sObj fields, path, .obj kvs => checkFields fields path kvs
  | .sObj _, path, _ => [⟨path, "must be object"⟩]
  | .sArr elem, path, .arr xs => checkElems elem path 0 xs
  | .sArr _, path, _ => [⟨path, "must be array"⟩]
termination_by s _ v => (sizeOf s, sizeOf v)

/-- Modelled from the spec: object validation walks the declared fields in
order, reporting a missing required field or recursing into the sub-schema
of a present field. -/
def checkFields : List (String × Bool × Schema) → String → List (String × Json) → List Violation
  | [], _, _ => []
  | (name, required, sub) :: rest, path, kvs =>
    (match List.lookup name kvs with
     | none => if required then [⟨path ++ "/" ++ name, "is required"⟩] else []
     | some v => checkViolations sub (path ++ "/" ++ name) v) ++
    checkFields rest path kvs
termination_by fields _ kvs => (sizeOf fields, sizeOf kvs)

/-- Modelled from the spec: array validation applies the element schema to
every member in order, reporting violations per index. -/
def checkElems : Schema → String → Nat → List Json → List Violation
  | _, _, _, [] => []
  | elem, path, i, x :: xs =>
    checkViolations elem (path ++ "/" ++ toString i) x ++ checkElems elem path (i + 1) xs
termination_by elem _ _ xs => (sizeOf elem, sizeOf xs)

end

/-- Modelled from the spec: the mutable `errors` property carried by the
compiled validator between calls (`null` after a successful call). -/
structure AjvState where
  errors : Option (List Violation)
deriving DecidableEq, Repr

/-- Modelled from the spec: one call of the compiled validator on a value —
computes the ordered violation list, returns the boolean verdict, and
overwrites the `errors` state (the prior state is never read). -/
def runValidate (s : Schema) (_st : AjvState) (v : Json) : Bool × AjvState :=
  let errs := checkViolations s "" v
  if errs.isEmpty then (true, { errors := none }) else (false, { errors := some errs })

theorem checkFields_congr (path : String) :
    ∀ (fields : List (String × Bool × Schema)) (kvs₁ kvs₂ : List (String × Json)),
      (∀ k, List.lookup k kvs₁ = List.lookup k kvs₂) →
      checkFields fields path kvs₁ = checkFields fields path kvs₂
  | [], _, _, _ => by simp [checkFields]
  | (name, required, sub) :: rest, kvs₁, kvs₂, h => by
      simp only [checkFields]
      rw [h name, checkFields_congr path rest kvs₁ kvs₂ h]

/-- C9: the compiled validator is deterministic: a call on the same schema
and the same value returns the same verdict and the same violations in the
identical order regardless of the state left by earlier calls, and object
traversal follows schema-declaration field order, not input field order —
two objects with identical field lookups validate identically. -/
theorem compiledValidator_deterministic :
    (∀ (s : Schema) (st₁ st₂ : AjvState) (v : Json),
      runValidate s st₁ v = runValidate s st₂ v) ∧
    (∀ (fields : List (String × Bool × Schema)) (st : AjvState)
        (kvs₁ kvs₂ : List (String × Json)),
      (∀ k, List.lookup k kvs₁ = List.lookup k kvs₂) →
      runValidate (.sObj fields) st (.obj kvs₁) = runValidate (.sObj fields) st (.obj kvs₂)) := by
  constructor
  · intro s st₁ st₂ v
    rfl
  · intro fields st kvs₁ kvs₂ h
    unfold runValidate
    have hfields : checkViolations (.sObj fields) "" (.obj kvs₁)
        = checkViolations (.sObj fields) "" (.obj kvs₂) := by
      simp only [checkViolations]
      exact checkFields_congr "" fields kvs₁ kvs₂ h
    rw [hfields]

/-- Declared fields of a small demonstration schema. -/
def demoFields : List (String × Bool × Schema) :=
  [("receptors", true, .sObj []), ("age", false, .sNum (some 0) (some 130))]

/-- C9 witness: two input objects carrying the same fields in different
input order validate to the same verdict and violation list. -/
theorem compiledValidator_deterministic_witness :
    runValidate (.sObj demoFields) ⟨none⟩
        (.obj [("age", .num 44), ("receptors", .obj [])])
      = runValidate (.sObj demoFields) ⟨none⟩
        (.obj [("receptors", .obj []), ("age", .num 44)]) := by
  apply compiledValidator_deterministic.2
  intro k
  by_cases h1 : k = "age"
  · simp [List.lookup, h1]
  · by_cases h2 : k = "receptors"
    · simp [List.lookup, h1, h2]
    · have e1 : (k == "age") = false := by simp [h1]
      have e2 : (k == "receptors") = false := by simp [h2]
      simp [List.lookup, e1, e2]
